import Mathlib

/-!
Shallow embedding of the analysis-orchestration pipeline of
`bedrock_lambda_function.py` (school-monitoring Bedrock Lambda):
data fetch / normalization (the SQL select lists of `fetch_district_kpis`
and `fetch_at_risk_students`), the prompt registry `create_bedrock_prompt`,
the inference call `invoke_bedrock`, best-effort persistence `save_to_s3`,
and the top-level `lambda_handler`, followed by theorems settling the
frozen claims about this code.
-/

namespace Pramana

/-- A Python exception, as the handler reports it: `type(e).__name__` and `str(e)`. -/
structure PyError where
  ty : String
  msg : String
deriving DecidableEq, Repr

/-- Outcome of one physical call to the Bedrock runtime (`bedrock.invoke_model`
plus response unwrapping). A transient failure is a timeout / rate-limit /
5xx-class error; a permanent one is auth, malformed request or content policy.
The classification lives in the stub: the Python code treats both identically
(any exception propagates). -/
inductive ProviderOutcome where
  | success (text : String)
  | transient (e : PyError)
  | permanent (e : PyError)
deriving DecidableEq, Repr

/-- Request body built by `invoke_bedrock` (lines 214-225): fixed
anthropic_version, max_tokens 2000, one user message holding the prompt,
temperature 0.7, top_p 0.9. -/
structure BedrockRequest where
  anthropic_version : String
  max_tokens : Nat
  prompt : String
  temperature : ℚ
  top_p : ℚ
deriving DecidableEq, Repr

/-- The external Inference Provider as a stub: the outcome of the n-th
physical call for a given request and model id. -/
structure InferenceProvider where
  respond : BedrockRequest → String → Nat → ProviderOutcome

def mkBedrockRequest (prompt : String) : BedrockRequest :=
  { anthropic_version := "bedrock-2023-05-31"
    max_tokens := 2000
    prompt := prompt
    temperature := 7/10
    top_p := 9/10 }

/-- `invoke_bedrock(prompt, model_id)` (lines 210-241): builds the request body
and performs exactly one `bedrock.invoke_model` call; the unwrapped text is
returned on success and any provider exception propagates to the caller.
The second component counts physical provider calls made. -/
def invoke_bedrock (p : InferenceProvider) (prompt model_id : String) :
    Except PyError String × Nat :=
  match p.respond (mkBedrockRequest prompt) model_id 0 with
  | ProviderOutcome.success t => (Except.ok t, 1)
  | ProviderOutcome.transient e => (Except.error e, 1)
  | ProviderOutcome.permanent e => (Except.error e, 1)

/-- MySQL ROUND(x, 2) on exact numerics: round half away from zero to two
decimal places. -/
def round2 (q : ℚ) : ℚ :=
  if 0 ≤ q then ((Rat.floor (q * 100 + 1/2) : ℤ) : ℚ) / 100
  else -(((Rat.floor (-q * 100 + 1/2) : ℤ) : ℚ) / 100)

/-- A raw joined district row before the select list runs: the two name
columns plus the seven KPI columns, each nullable because it comes from a
LEFT JOIN (lines 38-58). -/
structure RawDistrictRow where
  district_name : String
  state_name : String
  district_performance_index : Option ℚ
  attendance_percentage : Option ℚ
  pass_percentage : Option ℚ
  sports_participation_rate : Option ℚ
  activity_engagement_rate : Option ℚ
  teacher_attendance_percentage : Option ℚ
  avg_inspection_score : Option ℚ
deriving DecidableEq, Repr

/-- One output row of `fetch_district_kpis`: field names are the select-list
aliases (lines 40-48). -/
structure DistrictKpiRecord where
  district_name : String
  state_name : String
  performance_index : ℚ
  student_attendance : ℚ
  pass_rate : ℚ
  sports_participation : ℚ
  activity_engagement : ℚ
  teacher_attendance : ℚ
  inspection_score : ℚ
deriving DecidableEq, Repr

/-- The select list of `fetch_district_kpis`: every KPI column goes through
ROUND(COALESCE(col, 0), 2); the name columns pass through. -/
def districtKpiRecord (r : RawDistrictRow) : DistrictKpiRecord :=
  { district_name := r.district_name
    state_name := r.state_name
    performance_index := round2 (r.district_performance_index.getD 0)
    student_attendance := round2 (r.attendance_percentage.getD 0)
    pass_rate := round2 (r.pass_percentage.getD 0)
    sports_participation := round2 (r.sports_participation_rate.getD 0)
    activity_engagement := round2 (r.activity_engagement_rate.getD 0)
    teacher_attendance := round2 (r.teacher_attendance_percentage.getD 0)
    inspection_score := round2 (r.avg_inspection_score.getD 0) }

/-- `fetch_district_kpis` applied to the raw joined rows in the order the
database delivers them (the ORDER BY on the raw composite index is the
external Data Provider ordering): the select list runs on each row. -/
def fetch_district_kpis (rows : List RawDistrictRow) : List DistrictKpiRecord :=
  rows.map districtKpiRecord

/-- One grouped (per-student) aggregate feeding the at-risk select list
(lines 74-94): the four name columns, the multiset of joined exam marks,
and the attendance counts entering the percentage expression. -/
structure RawStudentAgg where
  student_name : String
  gender : String
  school_name : String
  district_name : String
  marks : List ℚ
  presentCount : Nat
  attendanceCount : Nat
deriving DecidableEq, Repr

/-- One output row of `fetch_at_risk_students`. `avg_marks` is
ROUND(AVG(marks), 2) with no COALESCE, hence NULL when the student has no
exam results; `attendance_pct` divides by NULLIF(COUNT(...), 0), hence NULL
when the student has no attendance rows. -/
structure AtRiskRecord where
  student_name : String
  gender : String
  school_name : String
  district_name : String
  avg_marks : Option ℚ
  attendance_pct : Option ℚ
deriving DecidableEq, Repr

/-- The at-risk select list on one grouped row: AVG over zero rows is NULL,
and NULLIF(COUNT(sa.attendance_id), 0) makes the percentage NULL when the
student has no attendance records; both results are rounded to 2 places. -/
def studentAggRecord (r : RawStudentAgg) : AtRiskRecord :=
  { student_name := r.student_name
    gender := r.gender
    school_name := r.school_name
    district_name := r.district_name
    avg_marks :=
      if r.marks.isEmpty then none
      else some (round2 (r.marks.sum / (r.marks.length : ℚ)))
    attendance_pct :=
      if r.attendanceCount = 0 then none
      else some (round2 ((r.presentCount : ℚ) * 100 / (r.attendanceCount : ℚ))) }

/-- SQL three-valued `x < c` reduced to the Bool the HAVING clause uses:
NULL compares false. -/
def optLt (o : Option ℚ) (c : ℚ) : Bool :=
  match o with
  | none => false
  | some q => decide (q < c)

/-- HAVING avg_marks < 60 OR attendance_pct < 70 (on the select aliases). -/
def atRiskHaving (r : AtRiskRecord) : Bool :=
  optLt r.avg_marks 60 || optLt r.attendance_pct 70

/-- MySQL ascending sort key for a nullable column: NULLs order first. -/
def nullFirst (o : Option ℚ) : WithBot ℚ :=
  match o with
  | none => ⊥
  | some q => (q : WithBot ℚ)

/-- ORDER BY avg_marks ASC, attendance_pct ASC, lexicographically, with
NULLs first. -/
def atRiskLe (a b : AtRiskRecord) : Prop :=
  nullFirst a.avg_marks < nullFirst b.avg_marks ∨
    (nullFirst a.avg_marks = nullFirst b.avg_marks ∧
      nullFirst a.attendance_pct ≤ nullFirst b.attendance_pct)

instance : DecidableRel atRiskLe := fun a b => by
  unfold atRiskLe; infer_instance

/-- `fetch_at_risk_students` on the grouped per-student aggregates: run the
select list, keep rows passing the HAVING clause, sort by the ORDER BY key,
and apply LIMIT 20. -/
def fetch_at_risk_students (rows : List RawStudentAgg) : List AtRiskRecord :=
  (List.insertionSort atRiskLe
    ((rows.map studentAggRecord).filter (fun r => atRiskHaving r))).take 20

/-- Decimal rendering of a KPI value (a multiple of 1/100) the way Python
prints the float coming back from the driver: always at least one fractional
digit, no trailing zero beyond that (92.0, 92.5, 40.25, 0.05). -/
def ratStr (q : ℚ) : String :=
  let sign := if q < 0 then "-" else ""
  let n : Nat := (⌊|q| * 100⌋).toNat
  let ip := n / 100
  let fr := n % 100
  sign ++ toString ip ++
    (if fr = 0 then ".0"
     else if fr % 10 = 0 then "." ++ toString (fr / 10)
     else "." ++ (if fr < 10 then "0" else "") ++ toString fr)

def jstr (s : String) : String := "\"" ++ s ++ "\""

def jopt (o : Option ℚ) : String :=
  match o with
  | none => "null"
  | some q => ratStr q

/-- One `json.dumps(..., indent=2)` dict entry line (4-space indent). -/
def jfield (k v : String) : String := "    " ++ jstr k ++ ": " ++ v

/-- Join a list of strings with a separator (what `str.join` does in the
serializer of `json.dumps`). -/
def joinSep (sep : String) : List String → String
  | [] => ""
  | [x] => x
  | x :: y :: rest => x ++ sep ++ joinSep sep (y :: rest)

/-- A dict as `json.dumps(..., indent=2)` prints it as a list element. -/
def jdict (fields : List String) : String :=
  "\x7b\n" ++ joinSep ",\n" fields ++ "\n  \x7d"

/-- A list of dicts as `json.dumps(..., indent=2)` prints it. -/
def jlist (items : List String) : String :=
  if items.isEmpty then "[]"
  else "[\n  " ++ joinSep ",\n  " items ++ "\n]"

def districtJson (r : DistrictKpiRecord) : String :=
  jdict
    [ jfield "district_name" (jstr r.district_name)
    , jfield "state_name" (jstr r.state_name)
    , jfield "performance_index" (ratStr r.performance_index)
    , jfield "student_attendance" (ratStr r.student_attendance)
    , jfield "pass_rate" (ratStr r.pass_rate)
    , jfield "sports_participation" (ratStr r.sports_participation)
    , jfield "activity_engagement" (ratStr r.activity_engagement)
    , jfield "teacher_attendance" (ratStr r.teacher_attendance)
    , jfield "inspection_score" (ratStr r.inspection_score) ]

def atRiskJson (r : AtRiskRecord) : String :=
  jdict
    [ jfield "student_name" (jstr r.student_name)
    , jfield "gender" (jstr r.gender)
    , jfield "school_name" (jstr r.school_name)
    , jfield "district_name" (jstr r.district_name)
    , jfield "avg_marks" (jopt r.avg_marks)
    , jfield "attendance_pct" (jopt r.attendance_pct) ]

/-- The dataset handed to `create_bedrock_prompt`: either the district-KPI
rows or the at-risk-student rows. -/
inductive Dataset where
  | district (rows : List DistrictKpiRecord)
  | atRisk (rows : List AtRiskRecord)
deriving DecidableEq, Repr

def datasetLen : Dataset → Nat
  | Dataset.district rows => rows.length
  | Dataset.atRisk rows => rows.length

/-- `json.dumps(data, indent=2)` on the fetched dataset. -/
def jsonDumps : Dataset → String
  | Dataset.district rows => jlist (rows.map districtJson)
  | Dataset.atRisk rows => jlist (rows.map atRiskJson)

def comprehensiveTemplate (dj : String) : String :=
  "\nYou are an expert education data analyst for government schools in India.\n\nAnalyze this district performance data:\n\n"
    ++ dj ++
  "\n\nProvide a comprehensive analysis including:\n\n1. EXECUTIVE SUMMARY\n   - Overall state of districts (2-3 sentences)\n   - Key finding\n\n2. TOP PERFORMERS\n   - List top 3 districts\n   - What makes them successful?\n   - Common success patterns\n\n3. UNDERPERFORMERS\n   - List bottom 3 districts\n   - What are their main issues?\n   - Root causes\n\n4. KEY INSIGHTS\n   - Correlation between KPIs\n   - Surprising patterns\n   - Critical observations\n\n5. RECOMMENDATIONS\n   - 5 specific, actionable recommendations\n   - Priority level (High/Medium/Low)\n   - Expected impact\n   - Timeline for implementation\n\nFormat with clear sections and bullet points.\n"

def atRiskTemplate (dj : String) : String :=
  "\nAnalyze these at-risk districts (performance index < 60):\n\n"
    ++ dj ++
  "\n\nFor each district:\n1. RISK LEVEL: High/Medium/Low\n2. PRIMARY ISSUES: What\x27s causing poor performance?\n3. IMMEDIATE ACTIONS: What to do in next 30 days?\n4. MEDIUM-TERM PLAN: 3-6 month improvement strategy\n5. RESOURCES NEEDED: Budget, staff, infrastructure\n\nPrioritize by urgency and feasibility.\n"

def quickSummaryTemplate (dj : String) : String :=
  "\nProvide a brief summary of district performance:\n\n"
    ++ dj ++
  "\n\nInclude:\n- Overall state (1 sentence)\n- Top 3 performers\n- Bottom 3 performers  \n- One key recommendation\n\nKeep it concise (under 200 words).\n"

def atRiskStudentsTemplate (dj : String) : String :=
  "\nAnalyze these at-risk students:\n\n"
    ++ dj ++
  "\n\nFor each student or group:\n1. RISK ASSESSMENT: High/Medium/Low risk level\n2. RISK FACTORS: What\x27s causing the issues?\n3. INTERVENTION PLAN: Specific actions to take\n4. TIMELINE: When to implement interventions\n5. SUCCESS METRICS: How to measure improvement\n\nPrioritize students by risk level.\n"

def predictiveTemplate (dj : String) : String :=
  "\nBased on this current performance data:\n\n"
    ++ dj ++
  "\n\nProvide predictive analysis:\n1. TRENDS: Which districts are improving/declining?\n2. PREDICTIONS: Expected performance next quarter\n3. EARLY WARNINGS: Signs of potential problems\n4. OPPORTUNITIES: Districts ready for breakthrough\n5. PREVENTIVE ACTIONS: What to do now to improve outcomes\n\nUse data-driven reasoning.\n"

/-- `create_bedrock_prompt(data, analysis_type)` (lines 105-208): serialize
the dataset, then `prompts.get(analysis_type, prompts[comprehensive])`. -/
def create_bedrock_prompt (data : Dataset) (analysis_type : String) : String :=
  let data_json := jsonDumps data
  if analysis_type = "comprehensive" then comprehensiveTemplate data_json
  else if analysis_type = "at_risk" then atRiskTemplate data_json
  else if analysis_type = "quick_summary" then quickSummaryTemplate data_json
  else if analysis_type = "at_risk_students" then atRiskStudentsTemplate data_json
  else if analysis_type = "predictive" then predictiveTemplate data_json
  else comprehensiveTemplate data_json

/-- The analysis types registered in the `prompts` dict of
`create_bedrock_prompt`. -/
def registeredTypes : List String :=
  ["comprehensive", "at_risk", "quick_summary", "at_risk_students", "predictive"]

/-- The symbolic model map of `lambda_handler` (lines 291-296):
`models.get(model_choice, models[sonnet])`. -/
def resolveModelId (choice : String) : String :=
  if choice = "sonnet" then "anthropic.claude-3-sonnet-20240229-v1:0"
  else if choice = "haiku" then "anthropic.claude-3-haiku-20240307-v1:0"
  else if choice = "claude-2" then "anthropic.claude-v2:1"
  else "anthropic.claude-3-sonnet-20240229-v1:0"

/-- Run metadata assembled at lines 322-327. -/
structure Metadata where
  model : String
  model_id : String
  records_analyzed : Nat
  execution_time_seconds : ℚ
deriving DecidableEq, Repr

/-- The JSON body of the 200 success response (lines 341-347). -/
structure SuccessBody where
  timestamp : String
  analysis_type : String
  metadata : Metadata
  s3_path : Option String
  analysis : String
deriving DecidableEq, Repr

/-- The three response-body shapes `lambda_handler` can return: the success
body, the empty-at-risk short-circuit body (only `message` and `analysis`,
lines 302-308), and the catch-all failure body (only `error` and
`error_type`, lines 355-361). -/
inductive Body where
  | success (b : SuccessBody)
  | noRisk (message analysis : String)
  | failure (error error_type : String)
deriving DecidableEq, Repr

structure LambdaResult where
  statusCode : Nat
  body : Body
deriving DecidableEq, Repr

/-- The external world one invocation sees: the Data Provider outcomes for
the two queries, the Inference Provider, whether the Report Sink accepts the
write, and the run-dependent bucket / timestamp / elapsed-time values. -/
structure Env where
  districtRaw : Except PyError (List RawDistrictRow)
  atRiskRaw : Except PyError (List RawStudentAgg)
  provider : InferenceProvider
  sinkOk : Bool
  bucket : String
  timestamp : String
  elapsed : ℚ

/-- The Lambda event: the three optional parameters read at lines 284-286. -/
structure Event where
  analysis_type : Option String
  model : Option String
  save_to_s3 : Option Bool
deriving DecidableEq, Repr

/-- `save_to_s3(analysis, analysis_type, metadata)` (lines 243-268): writes
the report under `reports/{analysis_type}/{timestamp}.json` and returns the
s3 path, or returns None because its own try/except swallows every sink
failure. -/
def save_to_s3 (env : Env) (analysis : String) (analysis_type : String)
    (metadata : Metadata) : Option String :=
  if env.sinkOk then
    some ("s3://" ++ env.bucket ++ "/reports/" ++ analysis_type ++ "/"
      ++ env.timestamp ++ ".json")
  else none

/-- The data-fetch stage of `lambda_handler` (lines 299-310): the at-risk
branch short-circuits (result `none`) on an empty dataset; every other
analysis type fetches the district KPIs. A raised database error becomes the
`Except.error`. -/
def fetchStage (env : Env) (analysis_type : String) :
    Except PyError (Option Dataset) :=
  if analysis_type = "at_risk_students" then
    env.atRiskRaw.map (fun raw =>
      let d := fetch_at_risk_students raw
      if d.isEmpty then none else some (Dataset.atRisk d))
  else
    env.districtRaw.map (fun raw => some (Dataset.district (fetch_district_kpis raw)))

/-- `lambda_handler(event, context)` (lines 270-361). The second component
counts the physical Inference Provider calls made during the invocation.
Any exception raised inside the try block lands in the catch-all that
returns the 500 failure body. -/
def lambda_handler (env : Env) (event : Event) : LambdaResult × Nat :=
  let analysis_type := event.analysis_type.getD "comprehensive"
  let model_choice := event.model.getD "sonnet"
  let save_s3 := event.save_to_s3.getD true
  let model_id := resolveModelId model_choice
  match fetchStage env analysis_type with
  | Except.error e => (⟨500, Body.failure e.msg e.ty⟩, 0)
  | Except.ok none =>
      (⟨200, Body.noRisk "No at-risk students identified"
        "All students are performing well!"⟩, 0)
  | Except.ok (some data) =>
      let prompt := create_bedrock_prompt data analysis_type
      let r := invoke_bedrock env.provider prompt model_id
      match r.1 with
      | Except.error e => (⟨500, Body.failure e.msg e.ty⟩, r.2)
      | Except.ok analysis =>
          let metadata : Metadata :=
            { model := model_choice
              model_id := model_id
              records_analyzed := datasetLen data
              execution_time_seconds := env.elapsed }
          let s3_path :=
            if save_s3 then save_to_s3 env analysis analysis_type metadata
            else none
          (⟨200, Body.success
            { timestamp := env.timestamp
              analysis_type := analysis_type
              metadata := metadata
              s3_path := s3_path
              analysis := analysis }⟩, r.2)

/-! ## Observation helpers for the response bodies -/

/-- The record count a response body exposes: only the success body carries
metadata at all. -/
def bodyRecordCount : Body → Option Nat
  | Body.success b => some b.metadata.records_analyzed
  | Body.noRisk _ _ => none
  | Body.failure _ _ => none

/-- The analysis text a response body exposes, when it has one. -/
def bodyAnalysis : Body → Option String
  | Body.success b => some b.analysis
  | Body.noRisk _ a => some a
  | Body.failure _ _ => none

/-- A rational is an exact two-decimal-place value. -/
def isRounded2 (q : ℚ) : Prop := (q * 100).den = 1

instance (q : ℚ) : Decidable (isRounded2 q) := by
  unfold isRounded2; infer_instance

theorem round2_isRounded2 (q : ℚ) : isRounded2 (round2 q) := by
  unfold round2 isRounded2
  split
  · rw [div_mul_cancel₀ _ (by norm_num : (100 : ℚ) ≠ 0)]
    exact Rat.den_intCast _
  · rw [neg_mul, div_mul_cancel₀ _ (by norm_num : (100 : ℚ) ≠ 0)]
    rw [show -(((Rat.floor (-q * 100 + 1/2) : ℤ) : ℚ)) =
        (((-(Rat.floor (-q * 100 + 1/2)) : ℤ)) : ℚ) by push_cast; ring]
    exact Rat.den_intCast _

theorem ratFloor_eq_floor (q : ℚ) : Rat.floor q = ⌊q⌋ := by
  rw [Rat.floor_def', Rat.floor_def]

theorem round2_zero : round2 0 = 0 := by
  rw [round2]
  norm_num [ratFloor_eq_floor]

/-! ## Theorems for the confirmed registry and default-parameter claims -/

/-- Claim C6 (confirmed): for every dataset and every analysis-type
identifier with no registered template, `create_bedrock_prompt` does not
fail: it falls back to the comprehensive skeleton, producing exactly the
comprehensive prompt built from that skeleton and the serialized dataset,
identical to a call with analysis type comprehensive. -/
theorem C6_unknown_type_falls_back (data : Dataset) (T : String)
    (h : T ∉ registeredTypes) :
    create_bedrock_prompt data T = comprehensiveTemplate (jsonDumps data) ∧
    create_bedrock_prompt data T = create_bedrock_prompt data "comprehensive" := by
  simp only [registeredTypes, List.mem_cons, List.not_mem_nil, or_false, not_or] at h
  obtain ⟨h1, h2, h3, h4, h5⟩ := h
  constructor
  · simp [create_bedrock_prompt, h1, h2, h3, h4, h5]
  · simp [create_bedrock_prompt, h1, h2, h3, h4, h5]

/-- Witness for C6: the unregistered identifier "trend_report" on a
one-record dataset falls back to the comprehensive prompt. -/
theorem C6_unknown_type_falls_back_witness :
    "trend_report" ∉ registeredTypes ∧
    (create_bedrock_prompt (Dataset.district []) "trend_report" =
      comprehensiveTemplate (jsonDumps (Dataset.district [])) ∧
    create_bedrock_prompt (Dataset.district []) "trend_report" =
      create_bedrock_prompt (Dataset.district []) "comprehensive") :=
  ⟨by decide, C6_unknown_type_falls_back (Dataset.district []) "trend_report" (by decide)⟩

/-- Claim C8 (confirmed): prompt construction is deterministic — it is a
pure function of the analysis type and the dataset (the source computes the
prompt from `json.dumps(data)` and fixed string literals only), so two calls
on equal datasets give byte-identical prompts. -/
theorem C8_render_deterministic (T : String) (D1 D2 : Dataset) (h : D1 = D2) :
    create_bedrock_prompt D1 T = create_bedrock_prompt D2 T := by
  rw [h]

/-- Witness for C8 at a concrete dataset and analysis type. -/
theorem C8_render_deterministic_witness :
    create_bedrock_prompt (Dataset.atRisk []) "at_risk_students" =
      create_bedrock_prompt (Dataset.atRisk []) "at_risk_students" :=
  C8_render_deterministic "at_risk_students" (Dataset.atRisk []) (Dataset.atRisk []) rfl

/-- Claim C10 (confirmed): an omitted analysis-type parameter defaults to
comprehensive, an omitted model choice defaults to sonnet, and an omitted
persistence flag defaults to true — each omitted-parameter invocation is
indistinguishable from the corresponding explicit one. -/
theorem C10_parameter_defaults (env : Env) (a m : Option String) (p : Option Bool) :
    lambda_handler env ⟨none, m, p⟩ =
      lambda_handler env ⟨some "comprehensive", m, p⟩ ∧
    lambda_handler env ⟨a, none, p⟩ = lambda_handler env ⟨a, some "sonnet", p⟩ ∧
    lambda_handler env ⟨a, m, none⟩ = lambda_handler env ⟨a, m, some true⟩ :=
  ⟨rfl, rfl, rfl⟩

/-! ## C1: the invocation protocol of the Inference Gateway -/

/-- A provider stub that fails transiently on the first physical call and
would succeed on every later one (N = 1, below the retry bound of 2 the
spec recommends). -/
def transientOnceProvider : InferenceProvider :=
  ⟨fun _ _ n =>
    if n = 0 then ProviderOutcome.transient ⟨"ThrottlingException", "Rate exceeded"⟩
    else ProviderOutcome.success "ok"⟩

/-- Counterexample to claim C1: against a provider that fails transiently
once and then succeeds (N = 1, within the claimed retry bound), the claim
says `invoke` succeeds after N+1 = 2 calls; the code makes exactly one call,
never retries, and surfaces the transient failure. -/
theorem C1_counterexample :
    (invoke_bedrock transientOnceProvider "p" "m").2 = 1 ∧
    (invoke_bedrock transientOnceProvider "p" "m").1 =
      Except.error ⟨"ThrottlingException", "Rate exceeded"⟩ ∧
    ¬((invoke_bedrock transientOnceProvider "p" "m").1 = Except.ok "ok" ∧
      (invoke_bedrock transientOnceProvider "p" "m").2 = 2) := by
  refine ⟨rfl, rfl, ?_⟩
  rintro ⟨-, h2⟩
  exact absurd h2 (by decide)

/-- Claim C1 as amended: `invoke_bedrock` performs no retry at all — every
invocation makes exactly one provider call, a first-call success is returned
as the narrative, and every failure, transient or non-transient alike,
surfaces immediately after that single call. -/
theorem C1_single_call_no_retry (p : InferenceProvider) (prompt mid : String) :
    (invoke_bedrock p prompt mid).2 = 1 ∧
    (∀ t, p.respond (mkBedrockRequest prompt) mid 0 = ProviderOutcome.success t →
      (invoke_bedrock p prompt mid).1 = Except.ok t) ∧
    (∀ e, p.respond (mkBedrockRequest prompt) mid 0 = ProviderOutcome.transient e →
      (invoke_bedrock p prompt mid).1 = Except.error e) ∧
    (∀ e, p.respond (mkBedrockRequest prompt) mid 0 = ProviderOutcome.permanent e →
      (invoke_bedrock p prompt mid).1 = Except.error e) := by
  refine ⟨?_, ?_, ?_, ?_⟩
  · unfold invoke_bedrock
    cases p.respond (mkBedrockRequest prompt) mid 0 <;> rfl
  · intro t h; unfold invoke_bedrock; rw [h]
  · intro e h; unfold invoke_bedrock; rw [h]
  · intro e h; unfold invoke_bedrock; rw [h]

/-- Witness for the amended C1: on the transient-then-success stub the call
count is 1 and the transient error surfaces. -/
theorem C1_single_call_no_retry_witness :
    (invoke_bedrock transientOnceProvider "p" "m").2 = 1 ∧
    (invoke_bedrock transientOnceProvider "p" "m").1 =
      Except.error ⟨"ThrottlingException", "Rate exceeded"⟩ :=
  ⟨(C1_single_call_no_retry transientOnceProvider "p" "m").1,
    (C1_single_call_no_retry transientOnceProvider "p" "m").2.2.1 _ rfl⟩

/-! ## C2: empty at-risk dataset short-circuits -/

/-- Claim C2 as amended: an at-risk-students run whose fetch returns zero
rows short-circuits to the 200 envelope holding only the fixed message and
no-risk analysis text — the body carries no metadata at all (in particular
no record count) — and no Inference Provider call is made. -/
theorem C2_empty_at_risk_short_circuit (env : Env) (event : Event)
    (raw : List RawStudentAgg)
    (hty : event.analysis_type = some "at_risk_students")
    (hraw : env.atRiskRaw = Except.ok raw)
    (hempty : fetch_at_risk_students raw = []) :
    lambda_handler env event =
      (⟨200, Body.noRisk "No at-risk students identified"
        "All students are performing well!"⟩, 0) ∧
    bodyRecordCount (lambda_handler env event).1.body = none := by
  have hf : fetchStage env "at_risk_students" = Except.ok none := by
    simp [fetchStage, hraw, Except.map, hempty]
  have hmain : lambda_handler env event =
      (⟨200, Body.noRisk "No at-risk students identified"
        "All students are performing well!"⟩, 0) := by
    simp only [lambda_handler, hty, Option.getD_some]
    rw [hf]
  exact ⟨hmain, by rw [hmain]; rfl⟩

/-- An environment whose at-risk query returns zero rows; the provider stub
records that it would answer if called. -/
def envC2 : Env :=
  { districtRaw := Except.ok []
    atRiskRaw := Except.ok []
    provider := ⟨fun _ _ _ => ProviderOutcome.success "unused"⟩
    sinkOk := true
    bucket := "school-monitoring-reports"
    timestamp := "20250101_120000"
    elapsed := 2 }

def evAtRisk : Event := ⟨some "at_risk_students", some "haiku", some true⟩

/-- Counterexample to claim C2 as stated: the short-circuit envelope is a
success with the fixed no-risk text and zero inference calls, but its body
holds only `message` and `analysis` — there is no metadata, so
`metadata.record_count == 0` fails. -/
theorem C2_counterexample :
    (lambda_handler envC2 evAtRisk).1.statusCode = 200 ∧
    bodyAnalysis (lambda_handler envC2 evAtRisk).1.body =
      some "All students are performing well!" ∧
    (lambda_handler envC2 evAtRisk).2 = 0 ∧
    bodyRecordCount (lambda_handler envC2 evAtRisk).1.body ≠ some 0 := by
  decide

/-- Witness for the amended C2 at the concrete empty-fetch environment. -/
theorem C2_empty_at_risk_short_circuit_witness :
    (evAtRisk.analysis_type = some "at_risk_students" ∧
      envC2.atRiskRaw = Except.ok [] ∧ fetch_at_risk_students [] = []) ∧
    (lambda_handler envC2 evAtRisk =
      (⟨200, Body.noRisk "No at-risk students identified"
        "All students are performing well!"⟩, 0) ∧
    bodyRecordCount (lambda_handler envC2 evAtRisk).1.body = none) :=
  ⟨⟨rfl, rfl, rfl⟩, C2_empty_at_risk_short_circuit envC2 evAtRisk [] rfl rfl rfl⟩

/-! ## C3: persistence failure is non-fatal -/

/-- Claim C3 (confirmed): when fetch, templating and inference succeed but
the Report Sink rejects the write, the run still returns a 200 success
envelope whose analysis is the unchanged narrative and whose s3 path is
null; a persistence failure never produces the failure body and never
alters the analysis text, and the record count survives. -/
theorem C3_persistence_failure_nonfatal (env : Env) (event : Event)
    (data : Dataset) (t : String)
    (hfetch : fetchStage env (event.analysis_type.getD "comprehensive") =
      Except.ok (some data))
    (hprov : ∀ req mid n, env.provider.respond req mid n = ProviderOutcome.success t)
    (hsink : env.sinkOk = false) :
    (lambda_handler env event).1.statusCode = 200 ∧
    ∃ b, (lambda_handler env event).1.body = Body.success b ∧
      b.analysis = t ∧ b.s3_path = none ∧
      b.metadata.records_analyzed = datasetLen data := by
  simp only [lambda_handler]
  rw [hfetch]
  simp only [invoke_bedrock, hprov]
  refine ⟨trivial, ?_⟩
  refine ⟨_, rfl, rfl, ?_, rfl⟩
  simp [save_to_s3, hsink]

/-- A run against a Report Sink that always fails: one district row, a
provider that answers with a fixed narrative, persistence requested. -/
def rawRowA : RawDistrictRow :=
  { district_name := "Pune"
    state_name := "Maharashtra"
    district_performance_index := some (185/2)
    attendance_percentage := some 90
    pass_percentage := none
    sports_participation_rate := some (1234/100)
    activity_engagement_rate := none
    teacher_attendance_percentage := some (97/10)
    avg_inspection_score := some 4 }

def envC3 : Env :=
  { districtRaw := Except.ok [rawRowA]
    atRiskRaw := Except.ok []
    provider := ⟨fun _ _ _ => ProviderOutcome.success "narrative text"⟩
    sinkOk := false
    bucket := "school-monitoring-reports"
    timestamp := "20250101_120000"
    elapsed := 3 }

def evC3 : Event := ⟨some "comprehensive", none, some true⟩

def dataC3 : Dataset := Dataset.district (fetch_district_kpis [rawRowA])

/-- Witness for C3: with the always-failing sink the run is DONE, the
narrative is intact and the persisted location is null. -/
theorem C3_persistence_failure_nonfatal_witness :
    (fetchStage envC3 (evC3.analysis_type.getD "comprehensive") =
      Except.ok (some dataC3) ∧ envC3.sinkOk = false) ∧
    ((lambda_handler envC3 evC3).1.statusCode = 200 ∧
    ∃ b, (lambda_handler envC3 evC3).1.body = Body.success b ∧
      b.analysis = "narrative text" ∧ b.s3_path = none ∧
      b.metadata.records_analyzed = datasetLen dataC3) :=
  ⟨⟨rfl, rfl⟩,
    C3_persistence_failure_nonfatal envC3 evC3 dataC3 "narrative text"
      rfl (fun _ _ _ => rfl) rfl⟩

/-! ## C4: inference failure after a successful fetch -/

/-- Claim C4 as amended: when the fetch succeeds and the inference call
fails, the handler returns the 500 envelope whose body carries only the
error message and error type, after exactly one provider call; the body has
no analysis field and no metadata at all, so the fetched dataset's record
count is discarded rather than preserved. -/
theorem C4_inference_failure_discards_metadata (env : Env) (event : Event)
    (data : Dataset) (e : PyError)
    (hfetch : fetchStage env (event.analysis_type.getD "comprehensive") =
      Except.ok (some data))
    (hprov : ∀ req mid n,
      env.provider.respond req mid n = ProviderOutcome.transient e ∨
      env.provider.respond req mid n = ProviderOutcome.permanent e) :
    lambda_handler env event = (⟨500, Body.failure e.msg e.ty⟩, 1) ∧
    bodyRecordCount (lambda_handler env event).1.body = none ∧
    bodyAnalysis (lambda_handler env event).1.body = none := by
  have hmain : lambda_handler env event = (⟨500, Body.failure e.msg e.ty⟩, 1) := by
    simp only [lambda_handler]
    rw [hfetch]
    rcases hprov
        (mkBedrockRequest
          (create_bedrock_prompt data (event.analysis_type.getD "comprehensive")))
        (resolveModelId (event.model.getD "sonnet")) 0 with h | h <;>
      simp only [invoke_bedrock, h]
  exact ⟨hmain, by rw [hmain]; rfl, by rw [hmain]; rfl⟩

/-- A run whose provider always rejects authentication. -/
def envC4 : Env :=
  { districtRaw := Except.ok [rawRowA]
    atRiskRaw := Except.ok []
    provider := ⟨fun _ _ _ =>
      ProviderOutcome.permanent ⟨"AccessDeniedException", "Auth failure"⟩⟩
    sinkOk := true
    bucket := "school-monitoring-reports"
    timestamp := "20250101_120000"
    elapsed := 3 }

def evDefault : Event := ⟨none, none, none⟩

/-- Counterexample to claim C4 as stated: the fetch succeeded with one row,
the inference call fails, and the claim requires `metadata.record_count = 1`
in the returned envelope; the code's failure body has no metadata (and no
analysis field), only the error string and type. -/
theorem C4_counterexample :
    (lambda_handler envC4 evDefault).1 =
      ⟨500, Body.failure "Auth failure" "AccessDeniedException"⟩ ∧
    datasetLen (Dataset.district (fetch_district_kpis [rawRowA])) = 1 ∧
    bodyRecordCount (lambda_handler envC4 evDefault).1.body ≠ some 1 ∧
    bodyAnalysis (lambda_handler envC4 evDefault).1.body = none := by
  decide

/-- Witness for the amended C4 at the failing-auth environment. -/
theorem C4_inference_failure_discards_metadata_witness :
    (fetchStage envC4 (evDefault.analysis_type.getD "comprehensive") =
      Except.ok (some (Dataset.district (fetch_district_kpis [rawRowA])))) ∧
    (lambda_handler envC4 evDefault =
      (⟨500, Body.failure "Auth failure" "AccessDeniedException"⟩, 1) ∧
    bodyRecordCount (lambda_handler envC4 evDefault).1.body = none ∧
    bodyAnalysis (lambda_handler envC4 evDefault).1.body = none) :=
  ⟨rfl,
    C4_inference_failure_discards_metadata envC4 evDefault
      (Dataset.district (fetch_district_kpis [rawRowA]))
      ⟨"AccessDeniedException", "Auth failure"⟩ rfl (fun _ _ _ => Or.inr rfl)⟩

/-! ## C5: the caller always receives one well-formed envelope -/

/-- A response is well formed when it is a 200 carrying either the success
body or the short-circuit body, or a 500 carrying the structured failure
body with its error string and error type. -/
def wellFormedResult (r : LambdaResult) : Prop :=
  (r.statusCode = 200 ∧
    ((∃ b, r.body = Body.success b) ∨ ∃ m a, r.body = Body.noRisk m a)) ∨
  (r.statusCode = 500 ∧ ∃ err ty, r.body = Body.failure err ty)

/-- Claim C5 (confirmed): for every environment (unknown analysis types,
failing fetches, failing inference calls included) the handler is a total
function returning exactly one well-formed envelope — every exception path
lands in the catch-all that builds the structured 500 body, so no fault
escapes the invocation boundary. -/
theorem C5_always_one_wellformed_envelope (env : Env) (event : Event) :
    wellFormedResult (lambda_handler env event).1 := by
  simp only [lambda_handler]
  cases hf : fetchStage env (event.analysis_type.getD "comprehensive") with
  | error e => simp [wellFormedResult]
  | ok o =>
    cases o with
    | none => simp [wellFormedResult]
    | some data =>
      cases hr : (env.provider.respond
          (mkBedrockRequest
            (create_bedrock_prompt data (event.analysis_type.getD "comprehensive")))
          (resolveModelId (event.model.getD "sonnet")) 0) with
      | success t => simp [wellFormedResult, invoke_bedrock, hr]
      | transient e => simp [wellFormedResult, invoke_bedrock, hr]
      | permanent e => simp [wellFormedResult, invoke_bedrock, hr]

/-! ## C7: normalization of provider rows -/

/-- A student with one exam mark of 50 and no attendance rows at all:
AVG(marks) is 50 (at risk, passes the HAVING clause) but the attendance
percentage divides by NULLIF(0, 0) and is NULL. -/
def aggNoAttendance : RawStudentAgg :=
  { student_name := "Asha"
    gender := "F"
    school_name := "GHS-1"
    district_name := "District-A"
    marks := [50]
    presentCount := 0
    attendanceCount := 0 }

/-- The record the at-risk query produces for that student. -/
def recAsha : AtRiskRecord :=
  ⟨"Asha", "F", "GHS-1", "District-A", some 50, none⟩

/-- Counterexample to claim C7: the at-risk select list has no COALESCE on
its numeric fields, so a fetched record can carry a null numeric field —
the dataset for this one-student input contains a record whose
attendance_pct is null, refuting that every schema-declared numeric field
of every resulting record is present and non-null. -/
theorem C7_counterexample :
    fetch_at_risk_students [aggNoAttendance] = [recAsha] ∧
    recAsha.attendance_pct = none ∧
    ((fetch_at_risk_students [aggNoAttendance]).all
      fun r => r.attendance_pct.isSome) = false := by
  have h1 : studentAggRecord aggNoAttendance = recAsha := by
    simp [studentAggRecord, aggNoAttendance, recAsha]
    rw [round2]
    norm_num [ratFloor_eq_floor]
  have h2 : fetch_at_risk_students [aggNoAttendance] = [recAsha] := by
    unfold fetch_at_risk_students
    rw [List.map_singleton, h1]
    have hkeep : atRiskHaving recAsha = true := by
      simp only [atRiskHaving, optLt, recAsha]
      norm_num
    simp [hkeep, List.insertionSort, List.orderedInsert]
  exact ⟨h2, rfl, by rw [h2]; rfl⟩

/-- Claim C7 as amended: the district-KPI select list satisfies the claim in
full — every numeric field is coalesced to 0 when its source is null,
rounded to two decimal places, identifying fields pass through, and rows are
neither reordered nor dropped (the output is index-for-index the per-row
transform of the input). The at-risk select list rounds its numeric fields
when present and passes names through, but does NOT coalesce: a student with
no exam rows keeps a null avg_marks and one with no attendance rows keeps a
null attendance_pct, so at-risk records may carry null numeric fields. -/
theorem C7_normalization :
    (∀ rows : List RawDistrictRow,
      (fetch_district_kpis rows).length = rows.length ∧
      ∀ i : Nat, (fetch_district_kpis rows)[i]? =
        (rows[i]?).map districtKpiRecord) ∧
    (∀ r : RawDistrictRow,
      (districtKpiRecord r).district_name = r.district_name ∧
      (districtKpiRecord r).state_name = r.state_name ∧
      isRounded2 (districtKpiRecord r).performance_index ∧
      isRounded2 (districtKpiRecord r).student_attendance ∧
      isRounded2 (districtKpiRecord r).pass_rate ∧
      isRounded2 (districtKpiRecord r).sports_participation ∧
      isRounded2 (districtKpiRecord r).activity_engagement ∧
      isRounded2 (districtKpiRecord r).teacher_attendance ∧
      isRounded2 (districtKpiRecord r).inspection_score ∧
      (r.district_performance_index = none →
        (districtKpiRecord r).performance_index = 0) ∧
      (r.attendance_percentage = none →
        (districtKpiRecord r).student_attendance = 0) ∧
      (r.pass_percentage = none → (districtKpiRecord r).pass_rate = 0) ∧
      (r.sports_participation_rate = none →
        (districtKpiRecord r).sports_participation = 0) ∧
      (r.activity_engagement_rate = none →
        (districtKpiRecord r).activity_engagement = 0) ∧
      (r.teacher_attendance_percentage = none →
        (districtKpiRecord r).teacher_attendance = 0) ∧
      (r.avg_inspection_score = none → (districtKpiRecord r).inspection_score = 0)) ∧
    (∀ agg : RawStudentAgg,
      (studentAggRecord agg).student_name = agg.student_name ∧
      (studentAggRecord agg).district_name = agg.district_name ∧
      (∀ q, (studentAggRecord agg).avg_marks = some q → isRounded2 q) ∧
      (∀ q, (studentAggRecord agg).attendance_pct = some q → isRounded2 q) ∧
      (agg.marks = [] → (studentAggRecord agg).avg_marks = none) ∧
      (agg.attendanceCount = 0 → (studentAggRecord agg).attendance_pct = none)) := by
  refine ⟨?_, ?_, ?_⟩
  · intro rows
    exact ⟨by simp [fetch_district_kpis],
      fun i => by simp [fetch_district_kpis, List.getElem?_map]⟩
  · intro r
    refine ⟨rfl, rfl, round2_isRounded2 _, round2_isRounded2 _, round2_isRounded2 _,
      round2_isRounded2 _, round2_isRounded2 _, round2_isRounded2 _, round2_isRounded2 _,
      ?_, ?_, ?_, ?_, ?_, ?_, ?_⟩ <;>
      (intro h; simp [districtKpiRecord, h, round2_zero])
  · intro agg
    refine ⟨rfl, rfl, ?_, ?_, ?_, ?_⟩
    · intro q h
      unfold studentAggRecord at h
      by_cases hm : agg.marks.isEmpty
      · simp [hm] at h
      · simp [hm] at h
        exact h ▸ round2_isRounded2 _
    · intro q h
      unfold studentAggRecord at h
      by_cases hm : agg.attendanceCount = 0
      · simp [hm] at h
      · simp [hm] at h
        exact h ▸ round2_isRounded2 _
    · intro h; simp [studentAggRecord, h]
    · intro h; simp [studentAggRecord, h]

/-- Witness for the amended C7: the null pass rate of `rawRowA` is coalesced
to 0 by the district normalizer, while the zero-attendance student keeps a
null attendance percentage; a two-row district input keeps its two rows. -/
theorem C7_normalization_witness :
    (rawRowA.pass_percentage = none ∧ (districtKpiRecord rawRowA).pass_rate = 0) ∧
    (aggNoAttendance.attendanceCount = 0 ∧
      (studentAggRecord aggNoAttendance).attendance_pct = none) ∧
    (fetch_district_kpis [rawRowA, rawRowA]).length = [rawRowA, rawRowA].length := by
  have h := C7_normalization
  obtain ⟨-, -, -, -, -, -, -, -, -, -, -, c3, -, -, -, -⟩ := h.2.1 rawRowA
  obtain ⟨-, -, -, -, -, hatt⟩ := h.2.2 aggNoAttendance
  exact ⟨⟨rfl, c3 rfl⟩, ⟨rfl, hatt rfl⟩, (h.1 [rawRowA, rawRowA]).1⟩

/-! ## C9: prompt size and truncation -/

theorem joinSep_length_ge (sep : String) :
    ∀ l : List String, (l.map String.length).sum ≤ (joinSep sep l).length
  | [] => by simp [joinSep]
  | [x] => by simp [joinSep]
  | x :: y :: rest => by
      have ih := joinSep_length_ge sep (y :: rest)
      simp only [joinSep, List.map_cons, List.sum_cons, String.length_append] at ih ⊢
      omega

theorem jdict_length_pos (fs : List String) : 1 ≤ (jdict fs).length := by
  unfold jdict
  rw [String.length_append, String.length_append]
  have h : ("\x7b\n" : String).length = 2 := rfl
  omega

theorem districtJson_length_pos (r : DistrictKpiRecord) :
    1 ≤ (districtJson r).length := by
  unfold districtJson
  exact jdict_length_pos _

/-- The serialized dataset grows at least linearly in the record count. -/
theorem jsonDumps_replicate_length (n : Nat) (r : DistrictKpiRecord) :
    n ≤ (jsonDumps (Dataset.district (List.replicate n r))).length := by
  cases n with
  | zero => simp
  | succ m =>
    simp only [jsonDumps, jlist]
    rw [List.map_replicate]
    have hne : (List.replicate (m + 1) (districtJson r)).isEmpty = false := by simp
    simp only [hne, Bool.false_eq_true, if_false]
    rw [String.length_append, String.length_append]
    have hj := joinSep_length_ge ",\n  " (List.replicate (m + 1) (districtJson r))
    rw [List.map_replicate, List.sum_replicate, smul_eq_mul] at hj
    have hrec := districtJson_length_pos r
    have hmul : m + 1 ≤ (m + 1) * (districtJson r).length :=
      Nat.le_mul_of_pos_right _ hrec
    omega

/-- Every prompt the registry produces embeds the complete serialized
dataset: it is the template's fixed text around the untruncated
`json.dumps` of all records. -/
theorem prompt_embeds_json (data : Dataset) (T : String) :
    ∃ s1 s2, create_bedrock_prompt data T = s1 ++ jsonDumps data ++ s2 := by
  simp only [create_bedrock_prompt, comprehensiveTemplate, atRiskTemplate,
    quickSummaryTemplate, atRiskStudentsTemplate, predictiveTemplate]
  repeat' split
  all_goals exact ⟨_, _, rfl⟩

def exKpiRec : DistrictKpiRecord := ⟨"D", "S", 0, 0, 0, 0, 0, 0, 0⟩

/-- A dataset of 2^25 + 1 identical district records: its serialization
alone is longer than 33554432 bytes (the 25 MiB Bedrock request cap, an
upper bound on any input-size budget of the backend). -/
def bigKpiDataset : Dataset := Dataset.district (List.replicate 33554433 exKpiRec)

/-- Counterexample to claim C9: on a dataset whose serialized form exceeds
the backend's input-size budget (the prompt alone is longer than the 25 MiB
request cap), `create_bedrock_prompt` performs no truncation at all — the
prompt is exactly the comprehensive skeleton around the full serialization
of every record, with no truncation note and no record limit, and its
length exceeds the budget instead of staying within it. -/
theorem C9_counterexample :
    33554432 < (create_bedrock_prompt bigKpiDataset "comprehensive").length ∧
    create_bedrock_prompt bigKpiDataset "comprehensive" =
      comprehensiveTemplate (jsonDumps bigKpiDataset) := by
  constructor
  · have h1 : 33554433 ≤ (jsonDumps bigKpiDataset).length :=
      jsonDumps_replicate_length 33554433 exKpiRec
    obtain ⟨s1, s2, he⟩ := prompt_embeds_json bigKpiDataset "comprehensive"
    rw [he, String.length_append, String.length_append]
    omega
  · simp only [create_bedrock_prompt]
    exact if_pos trivial

/-- Claim C9 as amended: `create_bedrock_prompt` never truncates and never
annotates: every prompt embeds the complete serialized dataset between the
fixed template texts, and prompt length is unbounded in the record count —
no input-size budget is enforced (and nothing about truncation ever reaches
the run metadata, which has no such field). -/
theorem C9_no_truncation_unbounded :
    (∀ data T, ∃ s1 s2, create_bedrock_prompt data T = s1 ++ jsonDumps data ++ s2) ∧
    (∀ B : Nat, ∃ data, B < (create_bedrock_prompt data "comprehensive").length) := by
  constructor
  · exact prompt_embeds_json
  · intro B
    refine ⟨Dataset.district (List.replicate (B + 1) exKpiRec), ?_⟩
    have h1 : B + 1 ≤
        (jsonDumps (Dataset.district (List.replicate (B + 1) exKpiRec))).length :=
      jsonDumps_replicate_length (B + 1) exKpiRec
    obtain ⟨s1, s2, he⟩ :=
      prompt_embeds_json (Dataset.district (List.replicate (B + 1) exKpiRec)) "comprehensive"
    rw [he, String.length_append, String.length_append]
    omega

end Pramana
